import Mathlib

/-!
Verification development for the `bof-kit` repository (a COFF "Beacon
Object File" checker).

The embedding models `src/lib.rs` and `src/bin/bof-check.rs`.  Symbol
names are lists of characters (`Name`); a raw symbol together with the
COFF string table is represented by the outcome of resolving its name
(`Sym := Except String Name`), since the Rust code only ever consumes a
symbol through `symbol.name(&coff.strings)`, a `Result<&str>` that is
fixed for a fixed buffer.  A Rust `panic!` / `.expect(..)` / `.unwrap()`
is modelled as the `some msg` second component of an outcome pair
`(lines printed so far, Option panic-message)`: a panic aborts the
process abnormally (non-zero status), while ordinary returns carry
`none`.  The COFF parser itself lives in the external `goblin` crate,
so analysis entry points take the already-produced parse outcome
`Except String Coff`, mirroring the `match Coff::parse(buffer)` in
`lib.rs::parse`.
-/

namespace BofKit

/-- A symbol name, as a list of characters (Rust `&str` contents). -/
abbrev Name := List Char

/-- Shorthand turning a string literal into a `Name`. -/
def nm (s : String) : Name := s.toList

/-- Outcome of resolving one symbol's name against the string table:
`Except.ok name` or `Except.error e` (goblin's `Result<&str>`). -/
abbrev Sym := Except String Name

/-- The parsed COFF view that the checks consume: the header machine
field and the symbol table (each symbol via its name-resolution
outcome). -/
structure Coff where
  machine : Nat
  symbols : List Sym

/-- Machine constant for x86 (`IMAGE_FILE_MACHINE_I386`, lib.rs line 8). -/
def IMAGE_FILE_MACHINE_I386 : Nat := 0x014c

/-- Machine constant for x64 (`IMAGE_FILE_MACHINE_AMD64`, lib.rs line 9). -/
def IMAGE_FILE_MACHINE_AMD64 : Nat := 0x8664

/-- Machine constant for ARM64 (`IMAGE_FILE_MACHINE_ARM64`, lib.rs line 10). -/
def IMAGE_FILE_MACHINE_ARM64 : Nat := 0xaa64

/-- Required exported entrypoint name (`BEACON_ENTRYPOINT`, lib.rs line 14). -/
def BEACON_ENTRYPOINT : Name := nm "go"

/-- The Beacon API export table (`BEACON_EXPORTS`, lib.rs lines 18-47). -/
def BEACON_EXPORTS : List Name :=
  [nm "BeaconDataParse", nm "BeaconDataInt", nm "BeaconDataShort",
   nm "BeaconDataLength", nm "BeaconDataExtract",
   nm "BeaconFormatAlloc", nm "BeaconFormatReset", nm "BeaconFormatFree",
   nm "BeaconFormatAppend", nm "BeaconFormatPrintf",
   nm "BeaconFormatToString", nm "BeaconFormatInt",
   nm "BeaconPrintf", nm "BeaconOutput",
   nm "BeaconUseToken", nm "BeaconRevertToken", nm "BeaconIsAdmin",
   nm "BeaconGetSpawnTo", nm "BeaconInjectProcess",
   nm "BeaconInjectTemporaryProcess", nm "BeaconCleanupProcess",
   nm "toWideChar"]

/-- Win32 functions built into Beacon (`WIN32_BUILTIN`, lib.rs lines 51-56). -/
def WIN32_BUILTIN : List Name :=
  [nm "GetProcAddress", nm "LoadLibraryA", nm "GetModuleHandle",
   nm "FreeLibrary"]

/-- Common Win32 libraries (`WIN32_MODULES`, lib.rs lines 59-76). -/
def WIN32_MODULES : List Name :=
  [nm "NTDLL", nm "KERNEL32", nm "KERNELBASE", nm "GDI32", nm "USER32",
   nm "COMCTL32", nm "COMDLG32", nm "WS2_32", nm "ADVAPI32",
   nm "NETAPI32", nm "OLE32", nm "MSVCRT", nm "BASESRV", nm "CSRSRV",
   nm "WINSRV", nm "WININET"]

/-- Rust `str::split(c)`: split at every occurrence of the separator;
always yields at least one (possibly empty) segment. -/
def splitChar (c : Char) : List Char → List (List Char)
  | [] => [[]]
  | a :: rest =>
    if a = c then
      [] :: splitChar c rest
    else
      match splitChar c rest with
      | [] => [[a]]
      | s :: ss => (a :: s) :: ss

/-- Itertools `next_tuple::<(_, _)>()`: the first two items of the
iterator, when both exist. -/
def nextTuple : List α → Option (α × α)
  | a :: b :: _ => some (a, b)
  | _ => none

/-- Rust `Option::unwrap()`: the value, or a panic on `None`. -/
def unwrapO : Option α → Except String α
  | some a => Except.ok a
  | none => Except.error "called Option::unwrap() on a None value"

/-- Rust `str::strip_prefix`: `Some(rest)` exactly when the prefix
matches. -/
def stripPfx (p n : Name) : Option Name :=
  if p.isPrefixOf n then some (n.drop p.length) else none

/-- Classification verdict for one candidate import name, carrying
exactly the data the corresponding `println!` in `check_imports`
reports (the unrecognized-module branch prints the whole candidate
name). -/
inductive ImportCategory where
  | beaconExport : Name → ImportCategory
  | win32Builtin : Name → ImportCategory
  | dynamicResolution : Name → Name → ImportCategory
  | unrecognizedModule : Name → ImportCategory
  | unknownImport : Name → ImportCategory
deriving DecidableEq

/-- The classification body of `check_imports` (lib.rs lines 188-204)
for one prefix-stripped candidate name, with the `.unwrap()` on
`function.split('@').next()` modelled as fallible. -/
def classifyE (c : Name) : Except String ImportCategory :=
  if c ∈ BEACON_EXPORTS then Except.ok (ImportCategory.beaconExport c)
  else if c ∈ WIN32_BUILTIN then Except.ok (ImportCategory.win32Builtin c)
  else
    match nextTuple (splitChar '$' c) with
    | some md =>
      match (splitChar '@' md.2).head? with
      | none => Except.error "called Option::unwrap() on a None value"
      | some fn =>
        if md.1 ∈ WIN32_MODULES then
          Except.ok (ImportCategory.dynamicResolution md.1 fn)
        else
          Except.ok (ImportCategory.unrecognizedModule c)
    | none => Except.ok (ImportCategory.unknownImport c)

/-- Totalised classification: the category `classifyE` produces (the
`.unwrap()` inside never actually fires, see `classifyE_eq_ok`). -/
def catOf (c : Name) : ImportCategory :=
  if c ∈ BEACON_EXPORTS then ImportCategory.beaconExport c
  else if c ∈ WIN32_BUILTIN then ImportCategory.win32Builtin c
  else
    match nextTuple (splitChar '$' c) with
    | some md =>
      if md.1 ∈ WIN32_MODULES then
        ImportCategory.dynamicResolution md.1 ((splitChar '@' md.2).headD [])
      else
        ImportCategory.unrecognizedModule c
    | none => ImportCategory.unknownImport c

/-- One console line produced by the program (each `println!`). -/
inductive Line where
  | parsing : Line
  | parseFailed : Line
  | parseError : String → Line
  | archReport : String → Line
  | entrypointFound : Name → Line
  | entrypointMissing : Name → Line
  | beaconExport : Name → Line
  | win32Builtin : Name → Line
  | dynamicResolution : Name → Name → Line
  | unrecognizedLibrary : Name → Line
  | unknownImport : Name → Line
  | doneLine : Line
deriving DecidableEq

/-- The `println!` emitted for one classified import. -/
def importLineOf : ImportCategory → Line
  | ImportCategory.beaconExport n => Line.beaconExport n
  | ImportCategory.win32Builtin n => Line.win32Builtin n
  | ImportCategory.dynamicResolution m f => Line.dynamicResolution m f
  | ImportCategory.unrecognizedModule n => Line.unrecognizedLibrary n
  | ImportCategory.unknownImport n => Line.unknownImport n

/-- Outcome of running a piece of the program: the lines it printed, and
`some msg` when it ended in a panic (nothing runs afterwards). -/
abbrev Outcome := List Line × Option String

/-- Sequencing of two program pieces: the second runs only when the
first did not panic. -/
def andThen (a b : Outcome) : Outcome :=
  match a.2 with
  | some _ => a
  | none => (a.1 ++ b.1, b.2)

/-- Architecture name table of `check_arch` (lib.rs lines 152-157);
`none` models the `panic!("Unsupported machine type")` arm. -/
def archNameFor (m : Nat) : Option String :=
  if m = IMAGE_FILE_MACHINE_I386 then some "x86"
  else if m = IMAGE_FILE_MACHINE_AMD64 then some "x64"
  else if m = IMAGE_FILE_MACHINE_ARM64 then some "aarch64"
  else none

/-- `check_arch` (lib.rs lines 151-159). -/
def checkArch (m : Nat) : Outcome :=
  match archNameFor m with
  | some a => ([Line.archReport a], none)
  | none => ([], some "Unsupported machine type")

/-- The short-circuiting `.map(resolve.expect(..)).any(|s| s.eq("go"))`
iterator chain of `check_entrypoint`: names resolve lazily, so a
resolution failure panics only if reached before a match. -/
def anyGo : List Sym → Except String Bool
  | [] => Except.ok false
  | Except.error _ :: _ => Except.error "Unable to read symbol name"
  | Except.ok n :: rest =>
    if n = BEACON_ENTRYPOINT then Except.ok true else anyGo rest

/-- `check_entrypoint` (lib.rs lines 161-171). -/
def checkEntrypoint (syms : List Sym) : Outcome :=
  match anyGo syms with
  | Except.ok true => ([Line.entrypointFound BEACON_ENTRYPOINT], none)
  | Except.ok false => ([Line.entrypointMissing BEACON_ENTRYPOINT], none)
  | Except.error e => ([], some e)

/-- Import-prefix selection shared by `check_imports` (lib.rs lines
174-178) and `Bof::import_prefix` (lib.rs lines 93-99); `none` models
the `panic!("Unsupported machine type")` arm. -/
def importPrefixFor (m : Nat) : Option Name :=
  if m = IMAGE_FILE_MACHINE_I386 then some (nm "__imp__")
  else if m = IMAGE_FILE_MACHINE_AMD64 then some (nm "__imp_")
  else none

/-- The `filter_map` body of `check_imports`: `none` drops a
non-import symbol, `some` carries the (fallibly) stripped candidate. -/
def candidateOf (p n : Name) : Option (Except String Name) :=
  match p.isPrefixOf n with
  | true => some (unwrapO (stripPfx p n))
  | false => none

/-- The per-symbol loop of `check_imports` (lib.rs lines 179-204):
resolve the name (`.expect` = panic on failure), keep prefix-carrying
symbols, classify, print one line each, in symbol-table order. -/
def classifyLoop (p : Name) : List Sym → Outcome
  | [] => ([], none)
  | Except.error _ :: _ => ([], some "Unable to read symbol name")
  | Except.ok n :: rest =>
    match candidateOf p n with
    | none => classifyLoop p rest
    | some (Except.error e) => ([], some e)
    | some (Except.ok c) =>
      match classifyE c with
      | Except.error e => ([], some e)
      | Except.ok cat =>
        let t := classifyLoop p rest
        (importLineOf cat :: t.1, t.2)

/-- `check_imports` (lib.rs lines 173-204). -/
def checkImports (m : Nat) (syms : List Sym) : Outcome :=
  match importPrefixFor m with
  | none => ([], some "Unsupported machine type")
  | some p => classifyLoop p syms

/-- `check_all` (lib.rs lines 145-149). -/
def checkAll (m : Nat) (syms : List Sym) : Outcome :=
  andThen (checkArch m) (andThen (checkEntrypoint syms) (checkImports m syms))

/-- `parse` (lib.rs lines 102-110) as a function of goblin's parse
outcome: a parse error is printed and the function returns normally. -/
def parseBof : Except String Coff → Outcome
  | Except.ok coff => checkAll coff.machine coff.symbols
  | Except.error e => ([Line.parseFailed, Line.parseError e], none)

/-- `main` of `bin/bof-check.rs` (lines 11-17): print the banner, run
the analysis, print the closing line. -/
def mainRun (r : Except String Coff) : Outcome :=
  andThen ([Line.parsing], none) (andThen (parseBof r) ([Line.doneLine], none))

/-- Process exit status of one `bof-check` run: 0 on a normal return,
101 (the Rust panic status) when a panic aborted the run. -/
def exitStatus (r : Except String Coff) : Nat :=
  match (mainRun r).2 with
  | none => 0
  | some _ => 101

/-- The ordered candidate import names of a resolved symbol list under
prefix `p`: prefix-carrying names, stripped, in symbol-table order. -/
def candidates (p : Name) (names : List Name) : List Name :=
  names.filterMap fun n =>
    if p.isPrefixOf n then some (n.drop p.length) else none

/-! ## Supporting lemmas -/

/-- The first `split` segment is everything before the first separator. -/
theorem head?_splitChar (c : Char) (s : List Char) :
    (splitChar c s).head? = some (s.takeWhile (fun a => a ≠ c)) := by
  induction s with
  | nil => rfl
  | cons a rest ih =>
    by_cases h : a = c
    · simp [splitChar, h, List.takeWhile_cons]
    · rcases hs : splitChar c rest with _ | ⟨s0, ss⟩
      · rw [hs] at ih; simp at ih
      · rw [hs] at ih
        simp only [List.head?_cons, Option.some.injEq] at ih
        simp [splitChar, h, hs, List.takeWhile_cons, ih]

/-- Splitting never yields an empty segment list. -/
theorem splitChar_ne_nil (c : Char) (s : List Char) : splitChar c s ≠ [] := by
  intro h
  have := head?_splitChar c s
  rw [h] at this
  simp at this

/-- Splitting a separator-free prefix followed by a separator peels off
that prefix as the first segment. -/
theorem splitChar_append_cons (c : Char) (a b : List Char) (ha : c ∉ a) :
    splitChar c (a ++ c :: b) = a :: splitChar c b := by
  induction a with
  | nil => simp [splitChar]
  | cons x a' ih =>
    have hx : ¬ x = c := fun h => ha (h ▸ List.mem_cons_self x a')
    have ha' : c ∉ a' := fun h => ha (List.mem_cons_of_mem x h)
    simp only [List.cons_append, splitChar, if_neg hx]
    rw [List.append_eq, ih ha']

/-- Splitting a separator-free list yields that list as the only
segment. -/
theorem splitChar_of_not_mem (c : Char) (s : List Char) (h : c ∉ s) :
    splitChar c s = [s] := by
  induction s with
  | nil => rfl
  | cons a rest ih =>
    have hx : ¬ a = c := fun hh => h (hh ▸ List.mem_cons_self a rest)
    have h' : c ∉ rest := fun hh => h (List.mem_cons_of_mem a hh)
    simp [splitChar, hx, ih h']

/-- No Beacon export name contains a dollar sign. -/
theorem beacon_exports_no_dollar : ∀ n ∈ BEACON_EXPORTS, '$' ∉ n := by decide

/-- No Win32-builtin name contains a dollar sign. -/
theorem win32_builtin_no_dollar : ∀ n ∈ WIN32_BUILTIN, '$' ∉ n := by decide

/-- The inner `.unwrap()` of the classification body never fires:
`classifyE` always returns the totalised category. -/
theorem classifyE_eq_ok (c : Name) : classifyE c = Except.ok (catOf c) := by
  unfold classifyE catOf
  by_cases h1 : c ∈ BEACON_EXPORTS
  · simp [h1]
  · by_cases h2 : c ∈ WIN32_BUILTIN
    · simp [h1, h2]
    · simp only [if_neg h1, if_neg h2]
      rcases ht : nextTuple (splitChar '$' c) with _ | ⟨m, f⟩
      · rfl
      · rcases hsp : splitChar '@' f with _ | ⟨s0, ss⟩
        · exact absurd hsp (splitChar_ne_nil '@' f)
        · by_cases hm : m ∈ WIN32_MODULES
          · simp [hsp, hm]
          · simp [hsp, hm]

/-- On a fully resolved symbol list the entrypoint scan returns exactly
whether some name equals the required entrypoint. -/
theorem anyGo_map_ok (names : List Name) :
    anyGo (names.map Except.ok) =
      Except.ok (decide (BEACON_ENTRYPOINT ∈ names)) := by
  induction names with
  | nil => simp [anyGo]
  | cons n rest ih =>
    by_cases h : n = BEACON_ENTRYPOINT
    · subst h
      simp [anyGo]
    · have hne : ¬ BEACON_ENTRYPOINT = n := fun hh => h hh.symm
      simp [anyGo, h, ih, List.mem_cons, hne]

/-- On a fully resolved symbol list the import loop never panics and
prints one classification line per candidate, in order. -/
theorem classifyLoop_map_ok (p : Name) (names : List Name) :
    classifyLoop p (names.map Except.ok) =
      ((candidates p names).map (fun c => importLineOf (catOf c)), none) := by
  induction names with
  | nil => simp [classifyLoop, candidates]
  | cons n rest ih =>
    by_cases h : p.isPrefixOf n
    · have h' : p <+: n := List.isPrefixOf_iff_prefix.mp h
      simp [classifyLoop, candidateOf, h, stripPfx, unwrapO, classifyE_eq_ok,
        ih, candidates, List.filterMap_cons, h']
    · have h' : ¬ p <+: n := fun hh => h (List.isPrefixOf_iff_prefix.mpr hh)
      simp [classifyLoop, candidateOf, h, ih, candidates,
        List.filterMap_cons, h']

/-- A sequenced run panics exactly when one of its pieces does. -/
theorem andThen_snd (a b : Outcome) :
    (andThen a b).2 = none ↔ a.2 = none ∧ b.2 = none := by
  rcases ha : a.2 with _ | e
  · simp [andThen, ha]
  · simp [andThen, ha]

/-! ## Claim theorems -/

/-- Claim C1, counterexample: at machine code 0xaa64 (ARM64),
`check_imports` ends in the outcome modelling
`panic!("Unsupported machine type")` — an unhandled process crash —
rather than a declared `UnsupportedArchitecture` error (no such error
value exists anywhere in the code), refuting the claim's "classification
fails with the declared error UnsupportedArchitecture ... and never
causes a process crash". -/
theorem claim1_cex :
    checkImports IMAGE_FILE_MACHINE_ARM64 [] =
      ([], some "Unsupported machine type") := by decide

/-- Claim C1, amended: for machine code 0x8664 the import classifier
selects the prefix "__imp_"; for 0x014c it selects "__imp__"; for every
other machine code (including ARM64, 0xaa64) `check_imports` panics
with "Unsupported machine type" before any symbol is classified (an
unhandled process abort, not a declared error). -/
theorem claim1_amended (m : Nat) (syms : List Sym)
    (h1 : m ≠ IMAGE_FILE_MACHINE_I386) (h2 : m ≠ IMAGE_FILE_MACHINE_AMD64) :
    importPrefixFor IMAGE_FILE_MACHINE_AMD64 = some (nm "__imp_") ∧
    importPrefixFor IMAGE_FILE_MACHINE_I386 = some (nm "__imp__") ∧
    checkImports m syms = ([], some "Unsupported machine type") := by
  refine ⟨by decide, by decide, ?_⟩
  have e : importPrefixFor m = none := by
    simp [importPrefixFor, h1, h2]
  simp [checkImports, e]

/-- Claim C1, witness: the amended statement at machine code 0xaa64
with a one-symbol table. -/
theorem claim1_witness :
    importPrefixFor IMAGE_FILE_MACHINE_AMD64 = some (nm "__imp_") ∧
    importPrefixFor IMAGE_FILE_MACHINE_I386 = some (nm "__imp__") ∧
    checkImports IMAGE_FILE_MACHINE_ARM64 [Except.ok (nm "__imp_foo")] =
      ([], some "Unsupported machine type") :=
  claim1_amended IMAGE_FILE_MACHINE_ARM64 [Except.ok (nm "__imp_foo")]
    (by decide) (by decide)

/-- Claim C2, counterexample: when goblin's parse fails, `lib.rs::parse`
only prints the failure and returns normally, and `main` then finishes,
so the process exits with status zero — refuting "if the analysis ends
in a parse ... failure the process exits with a non-zero status". -/
theorem claim2_cex :
    parseBof (Except.error "Invalid magic number") =
      ([Line.parseFailed, Line.parseError "Invalid magic number"], none) ∧
    exitStatus (Except.error "Invalid magic number") = 0 := by
  exact ⟨by decide, by decide⟩

/-- Claim C2, amended: a parse failure is printed but the process still
exits with status zero; the process exits non-zero (the panic status
101) exactly when the analysis of a parsed file aborts in a panic;
successful analysis exits zero. -/
theorem claim2_amended (e : String) (c : Coff) :
    exitStatus (Except.error e) = 0 ∧
    exitStatus (Except.ok c) =
      (if (checkAll c.machine c.symbols).2.isSome then 101 else 0) := by
  constructor
  · rfl
  · rcases h : (checkAll c.machine c.symbols).2 with _ | msg
    · simp [exitStatus, mainRun, parseBof, andThen, h]
    · simp [exitStatus, mainRun, parseBof, andThen, h]

/-- Claim C3, counterexample: a symbol-name resolution failure reached
by the entrypoint check triggers the `.expect("Unable to read symbol
name")` panic — an unhandled fault — rather than any declared error,
refuting "name-resolution failure during entrypoint checking ... yields
a declared error, not a panic". -/
theorem claim3_cex :
    checkEntrypoint [Except.error "symbol name offset out of range"] =
      ([], some "Unable to read symbol name") := by decide

/-- Claim C3, amended: a parse failure is surfaced as a reported,
declared error without a fault, but a symbol-name resolution failure
reached during entrypoint checking or import classification aborts the
process via a panic ("Unable to read symbol name"), an unhandled fault
rather than a declared error. -/
theorem claim3_amended (e : String) (rest : List Sym) :
    parseBof (Except.error e) =
      ([Line.parseFailed, Line.parseError e], none) ∧
    checkEntrypoint (Except.error e :: rest) =
      ([], some "Unable to read symbol name") ∧
    checkImports IMAGE_FILE_MACHINE_AMD64 (Except.error e :: rest) =
      ([], some "Unable to read symbol name") := by
  refine ⟨rfl, rfl, ?_⟩
  have ep : importPrefixFor IMAGE_FILE_MACHINE_AMD64 = some (nm "__imp_") := by
    decide
  simp [checkImports, ep, classifyLoop]

/-- Claim C4, counterexample: for the candidate "KERNEL32$Bar@foo" the
code strips the non-numeric suffix "@foo" and reports function "Bar",
whereas the claim requires a non-numeric '@'-suffix to be kept (function
"Bar@foo"). -/
theorem claim4_cex :
    catOf (nm "KERNEL32$Bar@foo") =
      ImportCategory.dynamicResolution (nm "KERNEL32") (nm "Bar") ∧
    nm "Bar" ≠ nm "Bar@foo" := by
  exact ⟨by decide, by decide⟩

/-- Claim C4, amended: for every candidate import name of the shape
`module $ remainder` (no further '$' in either part), the function part
is the remainder truncated at its first '@': every '@'-suffix is
stripped, numeric or not. -/
theorem claim4_amended (a b : List Char) (ha : '$' ∉ a) (hb : '$' ∉ b) :
    catOf (a ++ '$' :: b) =
      (if a ∈ WIN32_MODULES then
        ImportCategory.dynamicResolution a (b.takeWhile (fun x => x ≠ '@'))
      else ImportCategory.unrecognizedModule (a ++ '$' :: b)) := by
  have hdol : '$' ∈ a ++ '$' :: b :=
    List.mem_append.mpr (Or.inr (List.mem_cons_self '$' b))
  have h1 : a ++ '$' :: b ∉ BEACON_EXPORTS :=
    fun h => beacon_exports_no_dollar _ h hdol
  have h2 : a ++ '$' :: b ∉ WIN32_BUILTIN :=
    fun h => win32_builtin_no_dollar _ h hdol
  have hsplit : splitChar '$' (a ++ '$' :: b) = a :: [b] := by
    rw [splitChar_append_cons '$' a b ha, splitChar_of_not_mem '$' b hb]
  have hheadD : (splitChar '@' b).headD [] = b.takeWhile (fun x => x ≠ '@') := by
    rw [List.headD_eq_head?_getD, head?_splitChar]
    rfl
  rw [catOf, if_neg h1, if_neg h2, hsplit]
  simp only [nextTuple]
  rw [hheadD]

/-- Claim C4, witness: the amended statement at the concrete candidate
"KERNEL32$Bar@foo". -/
theorem claim4_witness :
    catOf (nm "KERNEL32" ++ '$' :: nm "Bar@foo") =
      (if nm "KERNEL32" ∈ WIN32_MODULES then
        ImportCategory.dynamicResolution (nm "KERNEL32")
          ((nm "Bar@foo").takeWhile (fun x => x ≠ '@'))
      else ImportCategory.unrecognizedModule (nm "KERNEL32" ++ '$' :: nm "Bar@foo")) :=
  claim4_amended (nm "KERNEL32") (nm "Bar@foo") (by decide) (by decide)

/-- Claim C5: for every supported-architecture input (x64 prefix
"__imp_", x86 prefix "__imp__"), each prefix-stripped candidate is
classified by the four ordered rules with first match winning, every
candidate lands in exactly one category (the classification body never
fails per-symbol: `classifyE` always returns `ok`), and the output is
one line per candidate in original symbol-table order. -/
theorem claim5_thm :
    (∀ names : List Name,
      checkImports IMAGE_FILE_MACHINE_AMD64 (names.map Except.ok) =
        ((candidates (nm "__imp_") names).map
          (fun c => importLineOf (catOf c)), none) ∧
      checkImports IMAGE_FILE_MACHINE_I386 (names.map Except.ok) =
        ((candidates (nm "__imp__") names).map
          (fun c => importLineOf (catOf c)), none)) ∧
    (∀ c, classifyE c = Except.ok (catOf c)) ∧
    (∀ c, c ∈ BEACON_EXPORTS → catOf c = ImportCategory.beaconExport c) ∧
    (∀ c, c ∉ BEACON_EXPORTS → c ∈ WIN32_BUILTIN →
      catOf c = ImportCategory.win32Builtin c) ∧
    (∀ c m f, c ∉ BEACON_EXPORTS → c ∉ WIN32_BUILTIN →
      nextTuple (splitChar '$' c) = some (m, f) →
      catOf c =
        (if m ∈ WIN32_MODULES then
          ImportCategory.dynamicResolution m (f.takeWhile (fun x => x ≠ '@'))
        else ImportCategory.unrecognizedModule c)) ∧
    (∀ c, c ∉ BEACON_EXPORTS → c ∉ WIN32_BUILTIN →
      nextTuple (splitChar '$' c) = none →
      catOf c = ImportCategory.unknownImport c) := by
  refine ⟨?_, classifyE_eq_ok, ?_, ?_, ?_, ?_⟩
  · intro names
    have e64 : importPrefixFor IMAGE_FILE_MACHINE_AMD64 = some (nm "__imp_") := by
      decide
    have e86 : importPrefixFor IMAGE_FILE_MACHINE_I386 = some (nm "__imp__") := by
      decide
    constructor
    · simp only [checkImports, e64]
      exact classifyLoop_map_ok _ names
    · simp only [checkImports, e86]
      exact classifyLoop_map_ok _ names
  · intro c h
    rw [catOf, if_pos h]
  · intro c h1 h2
    rw [catOf, if_neg h1, if_pos h2]
  · intro c m f h1 h2 ht
    have hheadD : (splitChar '@' f).headD [] =
        f.takeWhile (fun x => x ≠ '@') := by
      rw [List.headD_eq_head?_getD, head?_splitChar]
      rfl
    rw [catOf, if_neg h1, if_neg h2, ht]
    show (if m ∈ WIN32_MODULES then
        ImportCategory.dynamicResolution m ((splitChar '@' f).headD [])
      else ImportCategory.unrecognizedModule c) = _
    rw [hheadD]
  · intro c h1 h2 ht
    rw [catOf, if_neg h1, if_neg h2, ht]

/-- Claim C5, witness: the rules at concrete inputs — under x64 the
symbol "__imp_BeaconPrintf" produces exactly the beacon-export line,
"BeaconPrintf" matches rule 1, and "SomethingElse" falls through to the
unknown-import fallback. -/
theorem claim5_witness :
    checkImports IMAGE_FILE_MACHINE_AMD64
        [Except.ok (nm "__imp_BeaconPrintf")] =
      ([Line.beaconExport (nm "BeaconPrintf")], none) ∧
    catOf (nm "BeaconPrintf") =
      ImportCategory.beaconExport (nm "BeaconPrintf") ∧
    catOf (nm "SomethingElse") =
      ImportCategory.unknownImport (nm "SomethingElse") := by
  refine ⟨?_,
    claim5_thm.2.2.1 (nm "BeaconPrintf") (by decide),
    claim5_thm.2.2.2.2.2 (nm "SomethingElse") (by decide) (by decide)
      (by decide)⟩
  exact ((claim5_thm.1 [nm "__imp_BeaconPrintf"]).1).trans (by decide)

/-- Claim C6: under x64 the symbol "__imp_KERNEL32$LoadLibraryA@4" is
classified as dynamic resolution with module "KERNEL32" and function
"LoadLibraryA" (stdcall suffix "@4" removed), even though
"LoadLibraryA" alone is in the Win32-builtin table. -/
theorem claim6_thm :
    checkImports IMAGE_FILE_MACHINE_AMD64
        [Except.ok (nm "__imp_KERNEL32$LoadLibraryA@4")] =
      ([Line.dynamicResolution (nm "KERNEL32") (nm "LoadLibraryA")], none) ∧
    catOf (nm "KERNEL32$LoadLibraryA@4") =
      ImportCategory.dynamicResolution (nm "KERNEL32") (nm "LoadLibraryA") ∧
    nm "LoadLibraryA" ∈ WIN32_BUILTIN := by
  exact ⟨by decide, by decide, by decide⟩

/-- Claim C7: on a fully resolved symbol list the entrypoint check
reports the entrypoint found exactly when some symbol name equals "go",
its absence only yields the warning line (never a panic), and whether
the whole analysis succeeds is equivalent to the architecture and the
classification stages succeeding — the entrypoint verdict plays no
part. -/
theorem claim7_thm (names : List Name) (m : Nat) :
    checkEntrypoint (names.map Except.ok) =
      ((if BEACON_ENTRYPOINT ∈ names then
          [Line.entrypointFound BEACON_ENTRYPOINT]
        else [Line.entrypointMissing BEACON_ENTRYPOINT]), none) ∧
    ((checkAll m (names.map Except.ok)).2 = none ↔
      ((checkArch m).2 = none ∧
        (checkImports m (names.map Except.ok)).2 = none)) := by
  have hgo := anyGo_map_ok names
  have hmain : checkEntrypoint (names.map Except.ok) =
      ((if BEACON_ENTRYPOINT ∈ names then
          [Line.entrypointFound BEACON_ENTRYPOINT]
        else [Line.entrypointMissing BEACON_ENTRYPOINT]), none) := by
    by_cases h : BEACON_ENTRYPOINT ∈ names
    · simp [checkEntrypoint, hgo, h]
    · simp [checkEntrypoint, hgo, h]
  have he : (checkEntrypoint (names.map Except.ok)).2 = none := by
    rw [hmain]
  refine ⟨hmain, ?_⟩
  constructor
  · intro h
    rcases (andThen_snd _ _).mp h with ⟨h1, h2⟩
    rcases (andThen_snd _ _).mp h2 with ⟨_, h4⟩
    exact ⟨h1, h4⟩
  · rintro ⟨h1, h4⟩
    exact (andThen_snd _ _).mpr ⟨h1, (andThen_snd _ _).mpr ⟨he, h4⟩⟩

/-- Claim C8: the analysis is a deterministic function of its input —
running it twice on the identical parse outcome yields identical
reports with lines in identical order (the embedding of the pipeline is
a pure function, with no mutable or random state). -/
theorem claim8_thm (r1 r2 : Except String Coff) (h : r1 = r2) :
    parseBof r1 = parseBof r2 ∧ mainRun r1 = mainRun r2 := by
  subst h
  exact ⟨rfl, rfl⟩

/-- Claim C8, witness: two runs on the same concrete input coincide. -/
theorem claim8_witness :
    parseBof (Except.ok ⟨IMAGE_FILE_MACHINE_AMD64, [Except.ok (nm "go")]⟩) =
      parseBof (Except.ok ⟨IMAGE_FILE_MACHINE_AMD64, [Except.ok (nm "go")]⟩) ∧
    mainRun (Except.ok ⟨IMAGE_FILE_MACHINE_AMD64, [Except.ok (nm "go")]⟩) =
      mainRun (Except.ok ⟨IMAGE_FILE_MACHINE_AMD64, [Except.ok (nm "go")]⟩) :=
  claim8_thm (Except.ok ⟨IMAGE_FILE_MACHINE_AMD64, [Except.ok (nm "go")]⟩)
    (Except.ok ⟨IMAGE_FILE_MACHINE_AMD64, [Except.ok (nm "go")]⟩) rfl

/-- Claim C9: for a candidate with two or more '$' separators, the
module is the text before the first '$' and the function comes only
from the segment between the first and second '$' (further truncated at
its first '@'); everything from the second '$' onward is absent from
the reported function name. -/
theorem claim9_thm (a b r : List Char) (ha : '$' ∉ a) (hb : '$' ∉ b) :
    nextTuple (splitChar '$' (a ++ '$' :: (b ++ '$' :: r))) = some (a, b) ∧
    catOf (a ++ '$' :: (b ++ '$' :: r)) =
      (if a ∈ WIN32_MODULES then
        ImportCategory.dynamicResolution a (b.takeWhile (fun x => x ≠ '@'))
      else ImportCategory.unrecognizedModule (a ++ '$' :: (b ++ '$' :: r))) := by
  have hsplit : splitChar '$' (a ++ '$' :: (b ++ '$' :: r)) =
      a :: b :: splitChar '$' r := by
    rw [splitChar_append_cons '$' a _ ha, splitChar_append_cons '$' b r hb]
  have hdol : '$' ∈ a ++ '$' :: (b ++ '$' :: r) :=
    List.mem_append.mpr (Or.inr (List.mem_cons_self '$' _))
  have h1 : a ++ '$' :: (b ++ '$' :: r) ∉ BEACON_EXPORTS :=
    fun h => beacon_exports_no_dollar _ h hdol
  have h2 : a ++ '$' :: (b ++ '$' :: r) ∉ WIN32_BUILTIN :=
    fun h => win32_builtin_no_dollar _ h hdol
  have hheadD : (splitChar '@' b).headD [] =
      b.takeWhile (fun x => x ≠ '@') := by
    rw [List.headD_eq_head?_getD, head?_splitChar]
    rfl
  refine ⟨by rw [hsplit]; rfl, ?_⟩
  rw [catOf, if_neg h1, if_neg h2, hsplit]
  simp only [nextTuple]
  rw [hheadD]

/-- Claim C9, witness: the statement at the concrete candidate
"KERNEL32$LoadLibraryA@4$tail". -/
theorem claim9_witness :
    nextTuple (splitChar '$'
        (nm "KERNEL32" ++ '$' :: (nm "LoadLibraryA@4" ++ '$' :: nm "tail"))) =
      some (nm "KERNEL32", nm "LoadLibraryA@4") ∧
    catOf (nm "KERNEL32" ++ '$' :: (nm "LoadLibraryA@4" ++ '$' :: nm "tail")) =
      (if nm "KERNEL32" ∈ WIN32_MODULES then
        ImportCategory.dynamicResolution (nm "KERNEL32")
          ((nm "LoadLibraryA@4").takeWhile (fun x => x ≠ '@'))
      else ImportCategory.unrecognizedModule
        (nm "KERNEL32" ++ '$' :: (nm "LoadLibraryA@4" ++ '$' :: nm "tail"))) :=
  claim9_thm (nm "KERNEL32") (nm "LoadLibraryA@4") (nm "tail")
    (by decide) (by decide)

/-- Claim C10: on a fully resolved ARM64 (0xaa64) input the
architecture step succeeds and reports "aarch64", the entrypoint check
runs and prints its line, and then `check_imports` — which has no
prefix for ARM64 — aborts the run with the "Unsupported machine type"
panic: passing the architecture step does not imply classification can
proceed. -/
theorem claim10_thm (names : List Name) :
    checkArch IMAGE_FILE_MACHINE_ARM64 = ([Line.archReport "aarch64"], none) ∧
    checkImports IMAGE_FILE_MACHINE_ARM64 (names.map Except.ok) =
      ([], some "Unsupported machine type") ∧
    checkAll IMAGE_FILE_MACHINE_ARM64 (names.map Except.ok) =
      (Line.archReport "aarch64" ::
        (if BEACON_ENTRYPOINT ∈ names then
          [Line.entrypointFound BEACON_ENTRYPOINT]
        else [Line.entrypointMissing BEACON_ENTRYPOINT]),
      some "Unsupported machine type") := by
  have harch : checkArch IMAGE_FILE_MACHINE_ARM64 =
      ([Line.archReport "aarch64"], none) := by decide
  have ea : importPrefixFor IMAGE_FILE_MACHINE_ARM64 = none := by decide
  have himp : checkImports IMAGE_FILE_MACHINE_ARM64 (names.map Except.ok) =
      ([], some "Unsupported machine type") := by
    simp [checkImports, ea]
  have hgo := anyGo_map_ok names
  have hentry : checkEntrypoint (names.map Except.ok) =
      ((if BEACON_ENTRYPOINT ∈ names then
          [Line.entrypointFound BEACON_ENTRYPOINT]
        else [Line.entrypointMissing BEACON_ENTRYPOINT]), none) := by
    by_cases h : BEACON_ENTRYPOINT ∈ names
    · simp [checkEntrypoint, hgo, h]
    · simp [checkEntrypoint, hgo, h]
  refine ⟨harch, himp, ?_⟩
  rw [checkAll, harch, hentry, himp]
  simp [andThen]

end BofKit
